import Mathlib

/-!
Verification of the voice_scheduler client core: the detail-collection merge,
the readiness predicate, the confirmation detector, the event-creation guard
(`handleCreateEvent` in `VoiceAgent.jsx`), the reset handler, and the
`updateDetails` payload builder from the api service module.

Strings model JavaScript strings; an absent/undefined object field is `none`
(for partial updates) or the empty string (where the code initialises fields
to `""`). JavaScript objects with unknown keys are modelled as the five named
fields plus an association list `extras` of the remaining keys, with object
spread modelled by `objSpread`.
-/

/-- JavaScript `a || b` on strings: the empty string is falsy. -/
def jsOr (a b : String) : String := if a = "" then b else a

/-- JavaScript truthiness of a string: non-empty. -/
def jsTruthy (s : String) : Bool := decide (s ≠ "")

/-- JavaScript truthiness of a nullable string (`null`/`undefined` and `""` are falsy). -/
def jsTruthyOpt : Option String → Bool
  | none => false
  | some s => jsTruthy s

/-- JavaScript `String.prototype.toLowerCase` (ASCII range, as exercised by the code). -/
def strLower (s : String) : String := String.mk (s.data.map Char.toLower)

/-- Character-list test: does `l` start with `pat`? -/
def charsPrefixOk : List Char → List Char → Bool
  | [], _ => true
  | _ :: _, [] => false
  | a :: as, b :: bs => a == b && charsPrefixOk as bs

/-- Character-list test: does `pat` occur contiguously inside `l`? -/
def charsContains (pat : List Char) : List Char → Bool
  | [] => pat.isEmpty
  | c :: cs => charsPrefixOk pat (c :: cs) || charsContains pat cs

/-- JavaScript `s.includes(pat)`. -/
def strContains (s pat : String) : Bool := charsContains pat.data s.data

/-- Insert key `k` with value `v` into an association list the way a JavaScript
object spread does: overwrite an existing key in place, else append. -/
def insertKV {α : Type} (m : List (String × α)) (k : String) (v : α) : List (String × α) :=
  if m.any (fun kv => kv.1 == k) then
    m.map (fun kv => if kv.1 == k then (k, v) else kv)
  else m ++ [(k, v)]

/-- JavaScript object spread `(:(base, ...upd))` over association lists. -/
def objSpread {α : Type} (base upd : List (String × α)) : List (String × α) :=
  upd.foldl (fun m kv => insertKV m kv.1 kv.2) base

/-- JavaScript rest-destructuring that drops key `k` (`const (:(k: ignored, ...rest)) = m`). -/
def eraseKey {α : Type} (m : List (String × α)) (k : String) : List (String × α) :=
  m.filter (fun kv => kv.1 != k)

/-- Property lookup on the association-list model of a JavaScript object. -/
def lookupKey {α : Type} (m : List (String × α)) (k : String) : Option α :=
  (m.find? (fun kv => kv.1 == k)).map (fun kv => kv.2)

/-- The client details record (`useState` initial value in `VoiceAgent.jsx`):
five string fields, all initialised to `""`, plus any unknown keys that a
tool-call spread copied in. -/
structure DetailsObj where
  name : String
  date : String
  time : String
  duration : String
  title : String
  extras : List (String × String)
deriving DecidableEq

/-- The initial details record `(name:"", date:"", time:"", duration:"", title:"")`. -/
def emptyDetails : DetailsObj :=
  { name := "", date := "", time := "", duration := "", title := "", extras := [] }

/-- A partial update (`argsDetails` in the `meeting_scheduler` tool branch):
each of the five fields may be absent, and unknown keys ride along. -/
structure PartialDetails where
  name : Option String
  date : Option String
  time : Option String
  duration : Option String
  title : Option String
  extras : List (String × String)
deriving DecidableEq

/-- The local merge in the `meeting_scheduler` tool branch of `VoiceAgent.jsx`
(the `setDetails(prev => (:(...prev, ...argsDetails, name: argsDetails.name || prev.name || "",
...)))` updater): each named field takes the update's value when truthy, else the
stored value; the object spread carries the update's remaining keys into the result. -/
def mergeDetails (prev : DetailsObj) (p : PartialDetails) : DetailsObj :=
  { name := jsOr (p.name.getD "") prev.name
    date := jsOr (p.date.getD "") prev.date
    time := jsOr (p.time.getD "") prev.time
    duration := jsOr (p.duration.getD "") prev.duration
    title := jsOr (p.title.getD "") prev.title
    extras := objSpread prev.extras p.extras }

/-- The gate in front of the local merge: `argsDetails && (argsDetails.name ||
argsDetails.date || argsDetails.time)`. -/
def hasCoreField (p : PartialDetails) : Bool :=
  jsTruthy (p.name.getD "") || jsTruthy (p.date.getD "") || jsTruthy (p.time.getD "")

/-- The full local-state update of the `meeting_scheduler` tool branch: merge only
when the update carries a truthy name, date or time. -/
def applyMeetingSchedulerLocal (prev : DetailsObj) (p : PartialDetails) : DetailsObj :=
  if hasCoreField p then mergeDetails prev p else prev

/-- The readiness check used by both transcript trigger paths
(`localDetails && localDetails.name && localDetails.date && localDetails.time`). -/
def localReady (d : DetailsObj) : Bool :=
  jsTruthy d.name && jsTruthy d.date && jsTruthy d.time

/-- The fixed affirmative phrase list of `isConfirmation` in `VoiceAgent.jsx`. -/
def confirmPhrases : List String :=
  [ "correct", "confirm", "that\x27s right", "that is right", "yes", "yeah",
    "yep", "ok", "okay", "sure", "go ahead", "create it"]

/-- `isConfirmation` from `VoiceAgent.jsx`: lower-case the utterance and test
whether any phrase of the fixed list occurs as a substring. -/
def isConfirmation (text : String) : Bool :=
  confirmPhrases.any (fun p => strContains (strLower text) p)

/-- The client phase state (`useState("idle")`): `idle`, `session`, or `done`. -/
inductive Phase
  | idle
  | session
  | done
deriving DecidableEq

/-- The slice of the `VoiceScheduler` component state that the verified
handlers read and write. -/
structure ClientState where
  phase : Phase
  details : DetailsObj
  sessionId : Option String
  creatingEvent : Bool
  micError : String
  messages : List String
deriving DecidableEq

/-- The backend response of `POST /api/calendar/create` as the client reads it;
absent optional fields are modelled by `""`. -/
structure CreateResponse where
  success : Bool
  eventId : String
  eventLink : String
  error : String
  detail : String
deriving DecidableEq

/-- Outcome of the `api.createEvent` adapter call: a parsed response, or a
thrown exception carrying its message. -/
inductive AdapterOutcome
  | ok (resp : CreateResponse)
  | exn (msg : String)
deriving DecidableEq

/-- `handleReset` in `VoiceAgent.jsx`: unconditionally clears the creation guard,
returns the phase to `idle`, empties the details record and messages, and clears
the session id and error, whatever the current state is. -/
def handleReset (_s : ClientState) : ClientState :=
  { phase := Phase.idle
    details := emptyDetails
    sessionId := none
    creatingEvent := false
    micError := ""
    messages := [] }

/-- The entry of `handleCreateEvent` up to and including the `await api.createEvent`
call: return early when `sid` is falsy or the guard `creatingEventRef` is already
held; otherwise take the guard, clear the error, and issue the adapter call (the
returned option records the call's arguments). -/
def hceBegin (s : ClientState) (sid : Option String) (readyDetails : DetailsObj) :
    ClientState × Option (String × DetailsObj) :=
  match sid with
  | none => (s, none)
  | some sv =>
    if sv = "" then (s, none)
    else if s.creatingEvent then (s, none)
    else ({ s with creatingEvent := true, micError := "" }, some (sv, readyDetails))

/-- The success chat message of `handleCreateEvent`: with a truthy `eventLink`
the link is included. -/
def successMessage (resp : CreateResponse) : String :=
  if jsTruthy resp.eventLink then
    "✅ Event created in Google Calendar:\n" ++ resp.eventLink
  else "✅ Event created in Google Calendar."

/-- The continuation of `handleCreateEvent` after the adapter call resolves:
`data.success && data.eventId` moves the phase to `done` and appends the success
message; otherwise the error string `data.detail || data.error || "Failed to create
event"` is surfaced; a thrown exception surfaces its message; the `finally` block
releases the guard on every path. -/
def hceFinish (s : ClientState) (a : AdapterOutcome) : ClientState :=
  match a with
  | AdapterOutcome.ok resp =>
    if resp.success && jsTruthy resp.eventId then
      { s with phase := Phase.done
               messages := s.messages ++ [successMessage resp]
               creatingEvent := false }
    else
      { s with micError := jsOr resp.detail (jsOr resp.error "Failed to create event")
               messages := s.messages ++ [ "I couldn\x27t create the event. Please try again."]
               creatingEvent := false }
  | AdapterOutcome.exn msg =>
      { s with micError := "Error creating event: " ++ msg
               messages := s.messages ++ [ "Error: " ++ msg]
               creatingEvent := false }

/-- A full run of `handleCreateEvent` from `VoiceAgent.jsx`, with the adapter's
outcome supplied as `a`. The option in the result records the one adapter call
made, if any. -/
def handleCreateEvent (s : ClientState) (sid : Option String) (readyDetails : DetailsObj)
    (a : AdapterOutcome) : ClientState × Option (String × DetailsObj) :=
  match hceBegin s sid readyDetails with
  | (s1, some call) => (hceFinish s1 a, some call)
  | (s1, none) => (s1, none)

/-- Two near-simultaneous triggers: the first enters `handleCreateEvent` and
suspends at the adapter `await` with the guard held; the second runs
`handleCreateEvent` to completion during that suspension; the first then resumes.
The returned list collects every adapter call made, in order. -/
def twoTriggerRun (s : ClientState) (sid : Option String) (d1 d2 : DetailsObj)
    (a1 a2 : AdapterOutcome) : ClientState × List (String × DetailsObj) :=
  match hceBegin s sid d1 with
  | (s1, some call) =>
    let r2 := handleCreateEvent s1 sid d2 a2
    (hceFinish r2.1 a1, [call] ++ r2.2.toList)
  | (s1, none) =>
    let r2 := handleCreateEvent s1 sid d2 a2
    (r2.1, r2.2.toList)

/-- The assistant-utterance heuristic of the transcript handler: the lower-cased
text contains "creating", "i'll create" or "i will create". -/
def aiCreatingHeuristic (text : String) : Bool :=
  strContains (strLower text) "creating" ||
    strContains (strLower text) "i\x27ll create" ||
    strContains (strLower text) "i will create"

/-- The assistant-transcript trigger path (`role === "ai"`, final, session id
truthy): `handleCreateEvent` is invoked, with the stored details, exactly when the
heuristic fires, `localReady` holds and the guard is free. -/
def aiTranscriptInvocation (sessionId : Option String) (creating : Bool)
    (d : DetailsObj) (text : String) : Option (String × DetailsObj) :=
  match sessionId with
  | none => none
  | some sv =>
    if sv = "" then none
    else if aiCreatingHeuristic text && localReady d && !creating then some (sv, d)
    else none

/-- The user-transcript trigger path (`role === "user"`, final, session id
truthy): `handleCreateEvent` is invoked, with the stored details, exactly when
`isConfirmation` matches, `localReady` holds and the guard is free. -/
def userTranscriptInvocation (sessionId : Option String) (creating : Bool)
    (d : DetailsObj) (text : String) : Option (String × DetailsObj) :=
  match sessionId with
  | none => none
  | some sv =>
    if sv = "" then none
    else if isConfirmation text && localReady d && !creating then some (sv, d)
    else none

/-- The explicit `create_event` tool branch of the message handler: with a truthy
session id it invokes `handleCreateEvent` on `args.userDetails || detailsRef.current`
unconditionally (the `if (currentDetails)` test is always truthy on an object). -/
def createEventToolInvocation (sessionId : Option String)
    (argsUserDetails : Option DetailsObj) (stored : DetailsObj) :
    Option (String × DetailsObj) :=
  match sessionId with
  | none => none
  | some sv =>
    if sv = "" then none
    else some (sv, argsUserDetails.getD stored)

/-- The tool-call arguments object built by `updateDetails` in the api service
module: `(:(sessionId, ...safePatch))` where `safePatch` is the patch with its
`sessionId` key rest-destructured away. -/
def updateDetailsArguments (sessionId : String) (patch : List (String × String)) :
    List (String × String) :=
  objSpread [( "sessionId", sessionId)] (eraseKey patch "sessionId")

/-- Modelled from the spec: trimming of leading and trailing whitespace, used
only to state the spec's readiness wording (the repository's client code does
not trim). -/
def specTrim (s : String) : String :=
  String.mk (((s.data.dropWhile Char.isWhitespace).reverse.dropWhile Char.isWhitespace).reverse)

/-- Modelled from the spec: the claimed readiness predicate, true iff `name`,
`date` and `time` are non-empty after trimming whitespace. Stated only for
comparison with `localReady`, which the code actually uses. -/
def isReadySpec (d : DetailsObj) : Bool :=
  jsTruthy (specTrim d.name) && jsTruthy (specTrim d.date) && jsTruthy (specTrim d.time)

/-- A details record whose name is only whitespace (input for the C5 analysis). -/
def wsNameDetails : DetailsObj :=
  { emptyDetails with name := " ", date := "2025-06-01", time := "10:00" }

/-- A fresh-session details record with only the title set (input for the C3 analysis). -/
def titleOnlyDetails : DetailsObj := { emptyDetails with title := "Standup" }

/-- A partial update carrying the unknown key `foo` (input for the C7 analysis). -/
def extraKeyPatch : PartialDetails :=
  { name := some "Jane", date := none, time := none, duration := none, title := none,
    extras := [( "foo", "bar")] }

/-- A collecting-phase client state with a live session and a free guard. -/
def sampleFreshState : ClientState :=
  { phase := Phase.session, details := emptyDetails, sessionId := some "s-1",
    creatingEvent := false, micError := "", messages := [] }

/-- The same client state with the creation guard held. -/
def sampleHeldState : ClientState := { sampleFreshState with creatingEvent := true }

/-- A partial update with all five named fields absent (only extras remain). -/
def clearFields (p : PartialDetails) : PartialDetails :=
  { p with name := none, date := none, time := none, duration := none, title := none }

/-- A backend response claiming success but carrying no event id (input for the
C10 analysis). -/
def respNoEventId : CreateResponse :=
  { success := true, eventId := "", eventLink := "", error := "", detail := "" }

/-- Concrete utterances from the claim's examples. -/
def utterYesCorrect : String := "Yes, that\x27s correct"

/-- The bare rejection utterance from the claim's examples. -/
def utterNo : String := "no"

/-- The negated utterance that still matches on substring, from the claim's examples. -/
def utterSaidNoGoAhead : String := "I said no, go ahead"

/-! Helper lemmas -/

theorem charsPrefixOk_iff (pat : List Char) : ∀ l : List Char,
    charsPrefixOk pat l = true ↔ ∃ r, l = pat ++ r := by
  induction pat with
  | nil =>
    intro l
    simp [charsPrefixOk]
  | cons a as ih =>
    intro l
    cases l with
    | nil =>
      simp [charsPrefixOk]
    | cons b bs =>
      simp only [charsPrefixOk, Bool.and_eq_true, beq_iff_eq, ih bs, List.cons_append,
        List.cons.injEq]
      constructor
      · rintro ⟨hab, r, hr⟩
        exact ⟨r, hab.symm, hr⟩
      · rintro ⟨r, hba, hr⟩
        exact ⟨hba.symm, r, hr⟩

theorem charsContains_iff (pat : List Char) : ∀ l : List Char,
    charsContains pat l = true ↔ ∃ a r, l = a ++ pat ++ r := by
  intro l
  induction l with
  | nil =>
    simp only [charsContains, List.isEmpty_iff]
    constructor
    · rintro rfl
      exact ⟨[], [], rfl⟩
    · rintro ⟨a, r, hr⟩
      rcases List.append_eq_nil.mp hr.symm with ⟨h1, h2⟩
      rcases List.append_eq_nil.mp h1 with ⟨_, h3⟩
      exact h3
  | cons c cs ih =>
    simp only [charsContains, Bool.or_eq_true, charsPrefixOk_iff, ih]
    constructor
    · rintro (⟨r, hr⟩ | ⟨a, r, hr⟩)
      · exact ⟨[], r, by simpa using hr⟩
      · exact ⟨c :: a, r, by simp [hr]⟩
    · rintro ⟨a, r, hr⟩
      cases a with
      | nil =>
        exact Or.inl ⟨r, by simpa using hr⟩
      | cons x xs =>
        simp only [List.cons_append, List.cons.injEq] at hr
        exact Or.inr ⟨xs, r, hr.2⟩

theorem strContains_iff (s pat : String) :
    strContains s pat = true ↔ ∃ a r, s.data = a ++ pat.data ++ r :=
  charsContains_iff pat.data s.data

theorem lookupKey_insertKV_ne {α : Type} (m : List (String × α)) (k q : String) (v : α)
    (h : q ≠ k) : lookupKey (insertKV m q v) k = lookupKey m k := by
  unfold insertKV lookupKey
  split
  · rw [List.find?_map]
    have hpres : ((fun kv : String × α => kv.1 == k) ∘ fun kv : String × α =>
        if kv.1 == q then (q, v) else kv) = fun kv : String × α => kv.1 == k := by
      funext kv
      by_cases hq : kv.1 = q
      · simp [hq, Ne.symm h]
      · simp [hq]
    rw [hpres]
    cases hfind : m.find? (fun kv : String × α => kv.1 == k) with
    | none => rfl
    | some kv =>
      have hk : kv.1 = k := by
        have := List.find?_some hfind
        simpa using this
      have hne : kv.1 ≠ q := by
        rw [hk]
        exact Ne.symm h
      simp [hne]
  · rw [List.find?_append]
    have hqk : (q == k) = false := beq_eq_false_iff_ne.mpr h
    have hnone : List.find? (fun kv : String × α => kv.1 == k) [(q, v)] = none := by
      simp [List.find?, hqk]
    rw [hnone, Option.or_none]

theorem lookupKey_objSpread_ne {α : Type} (k : String) : ∀ (l base : List (String × α)),
    (∀ kv ∈ l, kv.1 ≠ k) → lookupKey (objSpread base l) k = lookupKey base k := by
  intro l
  induction l with
  | nil =>
    intro base _
    rfl
  | cons kv t ih =>
    intro base hl
    have hstep : objSpread base (kv :: t) = objSpread (insertKV base kv.1 kv.2) t := rfl
    rw [hstep, ih (insertKV base kv.1 kv.2) (fun x hx => hl x (List.mem_cons_of_mem _ hx)),
      lookupKey_insertKV_ne base k kv.1 kv.2 (hl kv (List.mem_cons_self _ _))]

theorem eraseKey_ne {α : Type} (m : List (String × α)) (k : String) :
    ∀ kv ∈ eraseKey m k, kv.1 ≠ k := by
  intro kv hkv
  have := List.of_mem_filter hkv
  simpa using this

theorem jsOr_ne_empty (a b : String) (hb : b ≠ "") : jsOr a b ≠ "" := by
  unfold jsOr
  split
  · exact hb
  · assumption

theorem hceFinish_creatingEvent (s : ClientState) (a : AdapterOutcome) :
    (hceFinish s a).creatingEvent = false := by
  cases a with
  | ok resp =>
    by_cases h : (resp.success && jsTruthy resp.eventId) = true <;> simp [hceFinish, h]
  | exn m => simp [hceFinish]

theorem hceFinish_details (s : ClientState) (a : AdapterOutcome) :
    (hceFinish s a).details = s.details ∧ (hceFinish s a).sessionId = s.sessionId := by
  cases a with
  | ok resp =>
    by_cases h : (resp.success && jsTruthy resp.eventId) = true <;> simp [hceFinish, h]
  | exn m => simp [hceFinish]

theorem handleCreateEvent_run (s : ClientState) (sv : String) (d : DetailsObj)
    (a : AdapterOutcome) (hfree : s.creatingEvent = false) (hsv : sv ≠ "") :
    handleCreateEvent s (some sv) d a
      = (hceFinish { s with creatingEvent := true, micError := "" } a, some (sv, d)) := by
  simp [handleCreateEvent, hceBegin, hsv, hfree]

/-! Claim theorems -/

/-- C1: while the creation guard flag is held, any further call to
`handleCreateEvent` returns without calling the adapter, leaving the state
unchanged (the redundant trigger is silently dropped, no error surfaced); and
for two near-simultaneous triggers — the first suspended at the adapter call
with the guard held, the second running to completion meanwhile — exactly one
adapter call is made, and the guard is released at the end of the run. -/
theorem C1_guard_single_flight :
    (∀ (s : ClientState) (sid : Option String) (d : DetailsObj) (a : AdapterOutcome),
        s.creatingEvent = true → handleCreateEvent s sid d a = (s, none)) ∧
    (∀ (s : ClientState) (sv : String) (d1 d2 : DetailsObj) (a1 a2 : AdapterOutcome),
        s.creatingEvent = false → sv ≠ "" →
        (twoTriggerRun s (some sv) d1 d2 a1 a2).2 = [(sv, d1)] ∧
        (twoTriggerRun s (some sv) d1 d2 a1 a2).1.creatingEvent = false) := by
  constructor
  · intro s sid d a hheld
    cases sid with
    | none => rfl
    | some sv =>
      by_cases hsv : sv = ""
      · simp [handleCreateEvent, hceBegin, hsv]
      · simp [handleCreateEvent, hceBegin, hsv, hheld]
  · intro s sv d1 d2 a1 a2 hfree hsv
    have hb : hceBegin s (some sv) d1
        = ({ s with creatingEvent := true, micError := "" }, some (sv, d1)) := by
      simp [hceBegin, hsv, hfree]
    have h2 : handleCreateEvent { s with creatingEvent := true, micError := "" } (some sv) d2 a2
        = ({ s with creatingEvent := true, micError := "" }, none) := by
      simp [handleCreateEvent, hceBegin, hsv]
    constructor
    · simp [twoTriggerRun, hb, h2]
    · simp [twoTriggerRun, hb, h2, hceFinish_creatingEvent]

/-- C1 witness: with the guard held a call is dropped with no adapter call; a
two-trigger run from a free guard makes exactly the one call of the first trigger. -/
theorem C1_guard_single_flight_witness :
    handleCreateEvent sampleHeldState (some "s-1") emptyDetails (AdapterOutcome.exn "boom")
        = (sampleHeldState, none) ∧
    (twoTriggerRun sampleFreshState (some "s-1") emptyDetails emptyDetails
        (AdapterOutcome.exn "a") (AdapterOutcome.exn "b")).2 = [( "s-1", emptyDetails)] :=
  ⟨C1_guard_single_flight.1 sampleHeldState (some "s-1") emptyDetails
      (AdapterOutcome.exn "boom") rfl,
   (C1_guard_single_flight.2 sampleFreshState "s-1" emptyDetails emptyDetails
      (AdapterOutcome.exn "a") (AdapterOutcome.exn "b") rfl (by decide)).1⟩

/-- C2: on every exit path of `handleCreateEvent` after the guard is acquired —
adapter success, adapter failure response, or a thrown exception — the guard
flag ends released and the stored details record and session id are unchanged,
and a subsequent identical trigger acquires the guard again and re-issues the
adapter call. -/
theorem C2_guard_release_all_paths (s : ClientState) (sv : String) (d : DetailsObj)
    (a : AdapterOutcome) (hfree : s.creatingEvent = false) (hsv : sv ≠ "") :
    (handleCreateEvent s (some sv) d a).1.creatingEvent = false ∧
    (handleCreateEvent s (some sv) d a).1.details = s.details ∧
    (handleCreateEvent s (some sv) d a).1.sessionId = s.sessionId ∧
    (handleCreateEvent (handleCreateEvent s (some sv) d a).1 (some sv) d a).2
        = some (sv, d) := by
  rw [handleCreateEvent_run s sv d a hfree hsv]
  refine ⟨hceFinish_creatingEvent _ a, (hceFinish_details _ a).1, (hceFinish_details _ a).2, ?_⟩
  rw [handleCreateEvent_run _ sv d a (hceFinish_creatingEvent _ a) hsv]

/-- C2 witness: after an adapter exception the guard is free, details and
session id are untouched, and a retry issues the adapter call again. -/
theorem C2_guard_release_all_paths_witness :
    (handleCreateEvent sampleFreshState (some "s-1") emptyDetails
        (AdapterOutcome.exn "boom")).1.creatingEvent = false ∧
    (handleCreateEvent sampleFreshState (some "s-1") emptyDetails
        (AdapterOutcome.exn "boom")).1.details = sampleFreshState.details ∧
    (handleCreateEvent sampleFreshState (some "s-1") emptyDetails
        (AdapterOutcome.exn "boom")).1.sessionId = sampleFreshState.sessionId ∧
    (handleCreateEvent (handleCreateEvent sampleFreshState (some "s-1") emptyDetails
        (AdapterOutcome.exn "boom")).1 (some "s-1") emptyDetails
        (AdapterOutcome.exn "boom")).2 = some ( "s-1", emptyDetails) :=
  C2_guard_release_all_paths sampleFreshState "s-1" emptyDetails
    (AdapterOutcome.exn "boom") rfl (by decide)

/-- C10: from a collecting state, `handleCreateEvent` moves the phase to `done`
exactly when the backend response has `success` true and a truthy `eventId`;
with `success` true but an empty `eventId` the phase is unchanged and a
non-empty error message `detail || error || "Failed to create event"` is
surfaced. -/
theorem C10_done_requires_eventId (s : ClientState) (sv : String) (d : DetailsObj)
    (resp : CreateResponse) (hfree : s.creatingEvent = false) (hsv : sv ≠ "")
    (hphase : s.phase ≠ Phase.done) :
    ((handleCreateEvent s (some sv) d (AdapterOutcome.ok resp)).1.phase = Phase.done ↔
        resp.success = true ∧ resp.eventId ≠ "") ∧
    (resp.success = true → resp.eventId = "" →
      (handleCreateEvent s (some sv) d (AdapterOutcome.ok resp)).1.phase = s.phase ∧
      (handleCreateEvent s (some sv) d (AdapterOutcome.ok resp)).1.micError =
          jsOr resp.detail (jsOr resp.error "Failed to create event") ∧
      (handleCreateEvent s (some sv) d (AdapterOutcome.ok resp)).1.micError ≠ "") := by
  rw [handleCreateEvent_run s sv d (AdapterOutcome.ok resp) hfree hsv]
  constructor
  · by_cases h : (resp.success && jsTruthy resp.eventId) = true
    · have hs := Bool.and_eq_true _ _ |>.mp h
      simp only [jsTruthy, decide_eq_true_eq] at hs
      simp only [hceFinish, h, if_true]
      simpa using hs
    · have hcond : (resp.success && jsTruthy resp.eventId) = false := by
        rwa [Bool.not_eq_true] at h
      simp only [hceFinish, hcond, Bool.false_eq_true, if_false]
      constructor
      · intro hdone
        exact absurd hdone hphase
      · rintro ⟨hsucc, hid⟩
        exact absurd (by simp [jsTruthy, hsucc, hid]) h
  · intro hsucc hid
    have hcond : (resp.success && jsTruthy resp.eventId) = false := by
      simp [jsTruthy, hsucc, hid]
    refine ⟨?_, ?_, ?_⟩ <;> simp only [hceFinish, hcond, Bool.false_eq_true, if_false]
    · exact jsOr_ne_empty _ _ (jsOr_ne_empty _ _ (by decide))

/-- C10 witness: a response with `success` true and no `eventId` keeps the phase
in `session` and surfaces a non-empty error message. -/
theorem C10_done_requires_eventId_witness :
    (handleCreateEvent sampleFreshState (some "s-1") emptyDetails
        (AdapterOutcome.ok respNoEventId)).1.phase = sampleFreshState.phase ∧
    (handleCreateEvent sampleFreshState (some "s-1") emptyDetails
        (AdapterOutcome.ok respNoEventId)).1.micError =
        jsOr respNoEventId.detail (jsOr respNoEventId.error "Failed to create event") ∧
    (handleCreateEvent sampleFreshState (some "s-1") emptyDetails
        (AdapterOutcome.ok respNoEventId)).1.micError ≠ "" :=
  (C10_done_requires_eventId sampleFreshState "s-1" emptyDetails respNoEventId
      rfl (by decide) (by decide)).2 rfl rfl

/-- C3 counterexample: the explicit `create_event` tool branch invokes
`handleCreateEvent` on a session where only the title is set — readiness is
false yet the invocation happens and the adapter call is issued with the
non-ready record, so not every trigger path is gated by readiness. -/
theorem C3_counterexample :
    createEventToolInvocation (some "sess-1") none titleOnlyDetails
        = some ( "sess-1", titleOnlyDetails) ∧
    localReady titleOnlyDetails = false ∧
    (handleCreateEvent
        { phase := Phase.session, details := titleOnlyDetails, sessionId := some "sess-1",
          creatingEvent := false, micError := "", messages := [] }
        (some "sess-1") titleOnlyDetails (AdapterOutcome.exn "net")).2
        = some ( "sess-1", titleOnlyDetails) := by decide

/-- C3 amended: the user-confirmation and assistant-heuristic transcript paths
invoke `handleCreateEvent` only when name, date and time are all non-empty in
the current details record (so on a session with only a title set, a
confirmation utterance causes no creation attempt regardless of the
Confirmation Detector result); the explicit `create_event` tool call, however,
invokes `handleCreateEvent` whenever a session id exists, with no readiness
gate. -/
theorem C3_transcript_paths_gated :
    (∀ (sid : Option String) (creating : Bool) (d : DetailsObj) (text : String)
        (inv : String × DetailsObj),
        userTranscriptInvocation sid creating d text = some inv → localReady d = true) ∧
    (∀ (sid : Option String) (creating : Bool) (d : DetailsObj) (text : String)
        (inv : String × DetailsObj),
        aiTranscriptInvocation sid creating d text = some inv → localReady d = true) ∧
    (∀ (sv : String) (ud : Option DetailsObj) (stored : DetailsObj), sv ≠ "" →
        createEventToolInvocation (some sv) ud stored = some (sv, ud.getD stored)) ∧
    (∀ (sid : Option String) (creating : Bool) (d : DetailsObj) (text : String),
        d.name = "" → userTranscriptInvocation sid creating d text = none) := by
  refine ⟨?_, ?_, ?_, ?_⟩
  · intro sid creating d text inv h
    cases sid with
    | none => exact absurd h (by simp [userTranscriptInvocation])
    | some sv =>
      by_cases hsv : sv = ""
      · exact absurd h (by simp [userTranscriptInvocation, hsv])
      · by_cases hc : (isConfirmation text && localReady d && !creating) = true
        · exact ((Bool.and_eq_true _ _).mp ((Bool.and_eq_true _ _).mp hc).1).2
        · exact absurd h (by simp [userTranscriptInvocation, hsv, hc])
  · intro sid creating d text inv h
    cases sid with
    | none => exact absurd h (by simp [aiTranscriptInvocation])
    | some sv =>
      by_cases hsv : sv = ""
      · exact absurd h (by simp [aiTranscriptInvocation, hsv])
      · by_cases hc : (aiCreatingHeuristic text && localReady d && !creating) = true
        · exact ((Bool.and_eq_true _ _).mp ((Bool.and_eq_true _ _).mp hc).1).2
        · exact absurd h (by simp [aiTranscriptInvocation, hsv, hc])
  · intro sv ud stored hsv
    simp [createEventToolInvocation, hsv]
  · intro sid creating d text hname
    cases sid with
    | none => rfl
    | some sv =>
      by_cases hsv : sv = ""
      · simp [userTranscriptInvocation, hsv]
      · have hready : localReady d = false := by
          simp [localReady, jsTruthy, hname]
        simp [userTranscriptInvocation, hsv, hready]

/-- C3 amended witness: a confirmation with ready details does fire (showing the
gate is the readiness check), the tool branch fires without readiness, and a
title-only record never fires the confirmation path. -/
theorem C3_transcript_paths_gated_witness :
    localReady { emptyDetails with name := "Jane", date := "2025-06-01", time := "10:00" }
        = true ∧
    createEventToolInvocation (some "sess-1") none titleOnlyDetails
        = some ( "sess-1", titleOnlyDetails) ∧
    userTranscriptInvocation (some "sess-1") false titleOnlyDetails utterYesCorrect = none :=
  ⟨C3_transcript_paths_gated.1 (some "sess-1") false
      { emptyDetails with name := "Jane", date := "2025-06-01", time := "10:00" }
      utterYesCorrect
      ( "sess-1", { emptyDetails with name := "Jane", date := "2025-06-01", time := "10:00" })
      (by decide),
   C3_transcript_paths_gated.2.2.1 "sess-1" none titleOnlyDetails (by decide),
   C3_transcript_paths_gated.2.2.2 (some "sess-1") false titleOnlyDetails
      utterYesCorrect rfl⟩

/-- C4: the `meeting_scheduler` tool-call merge never clears any of the five
fields: for each field the merged value is the update's value when it is
non-empty, and the stored value otherwise; in particular a field non-empty in
the stored record stays non-empty. -/
theorem C4_merge_by_presence (prev : DetailsObj) (p : PartialDetails) :
    ((mergeDetails prev p).name
        = (if p.name.getD "" = "" then prev.name else p.name.getD "") ∧
      (mergeDetails prev p).date
        = (if p.date.getD "" = "" then prev.date else p.date.getD "") ∧
      (mergeDetails prev p).time
        = (if p.time.getD "" = "" then prev.time else p.time.getD "") ∧
      (mergeDetails prev p).duration
        = (if p.duration.getD "" = "" then prev.duration else p.duration.getD "") ∧
      (mergeDetails prev p).title
        = (if p.title.getD "" = "" then prev.title else p.title.getD "")) ∧
    (prev.name ≠ "" → (mergeDetails prev p).name ≠ "") ∧
    (prev.date ≠ "" → (mergeDetails prev p).date ≠ "") ∧
    (prev.time ≠ "" → (mergeDetails prev p).time ≠ "") ∧
    (prev.duration ≠ "" → (mergeDetails prev p).duration ≠ "") ∧
    (prev.title ≠ "" → (mergeDetails prev p).title ≠ "") := by
  refine ⟨⟨?_, ?_, ?_, ?_, ?_⟩, ?_, ?_, ?_, ?_, ?_⟩ <;>
    simp only [mergeDetails, jsOr] <;> intro h <;> split <;> simp_all

/-- C4 witness: an update with a new date and an empty name keeps the stored
name and overwrites the date. -/
theorem C4_merge_by_presence_witness :
    ((mergeDetails { emptyDetails with name := "Jane" }
        { name := none, date := some "2025-06-01", time := none, duration := none,
          title := none, extras := [] }).name
      = (if ((none : Option String).getD "" : String) = "" then "Jane"
          else (none : Option String).getD "")) ∧
    ("Jane" ≠ "" →
      (mergeDetails { emptyDetails with name := "Jane" }
        { name := none, date := some "2025-06-01", time := none, duration := none,
          title := none, extras := [] }).name ≠ "") :=
  ⟨(C4_merge_by_presence { emptyDetails with name := "Jane" }
      { name := none, date := some "2025-06-01", time := none, duration := none,
        title := none, extras := [] }).1.1,
   fun h => (C4_merge_by_presence { emptyDetails with name := "Jane" }
      { name := none, date := some "2025-06-01", time := none, duration := none,
        title := none, extras := [] }).2.1 h⟩

/-- C5 counterexample: the readiness check of the trigger paths does not trim —
a record whose name is only whitespace is accepted as ready by the code, while
the claim (with trimming) says it is not. -/
theorem C5_counterexample :
    localReady wsNameDetails = true ∧ isReadySpec wsNameDetails = false := by decide

/-- C5 amended: the readiness check returns true iff name, date and time are
each non-empty, with no whitespace trimming (a whitespace-only value counts as
non-empty), and the values of duration, title and any extra keys never affect
the result. -/
theorem C5_readiness_no_trim (d : DetailsObj) (x y : String)
    (e : List (String × String)) :
    (localReady d = true ↔ d.name ≠ "" ∧ d.date ≠ "" ∧ d.time ≠ "") ∧
    localReady { d with duration := x, title := y, extras := e } = localReady d := by
  constructor
  · simp [localReady, jsTruthy, and_assoc]
  · rfl

/-- C5 amended witness: the whitespace-only-name record is ready by the
non-trimming check, and changing duration and title does not change readiness. -/
theorem C5_readiness_no_trim_witness :
    (localReady wsNameDetails = true ↔
      wsNameDetails.name ≠ "" ∧ wsNameDetails.date ≠ "" ∧ wsNameDetails.time ≠ "") ∧
    localReady { wsNameDetails with duration := "30", title := "Standup", extras := [] }
        = localReady wsNameDetails :=
  C5_readiness_no_trim wsNameDetails "30" "Standup" []

/-- C6: `isConfirmation` lower-cases the utterance and returns true iff some
phrase of the fixed affirmative set occurs in it as a contiguous substring; in
particular "Yes, that's correct" is accepted, "no" is rejected, and
"I said no, go ahead" is accepted (the substring false positive). -/
theorem C6_isConfirmation_substring :
    (∀ text : String, isConfirmation text = true ↔
        ∃ p ∈ confirmPhrases, ∃ a r, (strLower text).data = a ++ p.data ++ r) ∧
    isConfirmation utterYesCorrect = true ∧
    isConfirmation utterNo = false ∧
    isConfirmation utterSaidNoGoAhead = true := by
  refine ⟨?_, by decide, by decide, by decide⟩
  intro text
  simp [isConfirmation, List.any_eq_true, strContains_iff]

/-- C6 witness: the bare rejection utterance matches no affirmative phrase. -/
theorem C6_isConfirmation_substring_witness :
    isConfirmation utterNo = false :=
  C6_isConfirmation_substring.2.2.1

/-- C7 counterexample: the tool-call merge does not ignore unknown keys — the
object spread copies them into the merged record, so the merged record does not
consist of exactly the five fields: the unknown key `foo` appears in it. -/
theorem C7_counterexample :
    (applyMeetingSchedulerLocal emptyDetails extraKeyPatch).extras
        = [( "foo", "bar")] := by decide

/-- C7 amended: missing keys in an update are treated as absent (an update with
all five fields absent leaves every named field unchanged), and unknown keys
never alter the five named fields — but they are copied into the merged record
by the object spread rather than dropped. -/
theorem C7_unknown_keys (prev : DetailsObj) (p : PartialDetails)
    (e1 e2 : List (String × String)) :
    ((mergeDetails prev { p with extras := e1 }).name
        = (mergeDetails prev { p with extras := e2 }).name ∧
      (mergeDetails prev { p with extras := e1 }).date
        = (mergeDetails prev { p with extras := e2 }).date ∧
      (mergeDetails prev { p with extras := e1 }).time
        = (mergeDetails prev { p with extras := e2 }).time ∧
      (mergeDetails prev { p with extras := e1 }).duration
        = (mergeDetails prev { p with extras := e2 }).duration ∧
      (mergeDetails prev { p with extras := e1 }).title
        = (mergeDetails prev { p with extras := e2 }).title) ∧
    ((mergeDetails prev (clearFields p)).name = prev.name ∧
      (mergeDetails prev (clearFields p)).date = prev.date ∧
      (mergeDetails prev (clearFields p)).time = prev.time ∧
      (mergeDetails prev (clearFields p)).duration = prev.duration ∧
      (mergeDetails prev (clearFields p)).title = prev.title) := by
  refine ⟨⟨rfl, rfl, rfl, rfl, rfl⟩, ?_⟩
  refine ⟨?_, ?_, ?_, ?_, ?_⟩ <;> simp [mergeDetails, clearFields, jsOr]

/-- C8: from every state — any phase, even with a creation attempt in flight —
`handleReset` returns the client to the idle phase, clears the creation guard
flag unconditionally, empties the details record and clears the session id. -/
theorem C8_reset_unconditional (s : ClientState) :
    (handleReset s).phase = Phase.idle ∧
    (handleReset s).creatingEvent = false ∧
    (handleReset s).details = emptyDetails ∧
    (handleReset s).sessionId = none :=
  ⟨rfl, rfl, rfl, rfl⟩

/-- C9: in the `updateDetails` payload, the tool-call arguments carry the
`sessionId` parameter, never a `sessionId` smuggled in the patch: the patch's
`sessionId` key is stripped before the spread, and two patches equal except for
their `sessionId` key produce identical arguments objects. -/
theorem C9_sessionId_isolated (sid : String) (patch p1 p2 : List (String × String)) :
    lookupKey (updateDetailsArguments sid patch) "sessionId" = some sid ∧
    (eraseKey p1 "sessionId" = eraseKey p2 "sessionId" →
      updateDetailsArguments sid p1 = updateDetailsArguments sid p2) := by
  constructor
  · rw [updateDetailsArguments,
      lookupKey_objSpread_ne _ (eraseKey patch "sessionId") _ (eraseKey_ne patch _)]
    simp [lookupKey, List.find?]
  · intro h
    rw [updateDetailsArguments, updateDetailsArguments, h]

/-- C9 witness: a patch that tries to smuggle a `sessionId` does not reach the
payload, and two patches differing only in that key build the same payload. -/
theorem C9_sessionId_isolated_witness :
    lookupKey (updateDetailsArguments "sess-9"
        [( "sessionId", "evil"), ( "name", "Jane")]) "sessionId" = some "sess-9" ∧
    updateDetailsArguments "sess-9" [( "sessionId", "evil"), ( "name", "Jane")]
        = updateDetailsArguments "sess-9" [( "sessionId", "other"), ( "name", "Jane")] :=
  ⟨(C9_sessionId_isolated "sess-9" [( "sessionId", "evil"), ( "name", "Jane")] [] []).1,
   (C9_sessionId_isolated "sess-9" []
      [( "sessionId", "evil"), ( "name", "Jane")]
      [( "sessionId", "other"), ( "name", "Jane")]).2 (by decide)⟩
